import Mathlib

/-!
Verification of the Leyesamano core against its specification.

The embedding translates the three source files:
  - src/services/geminiService.ts : query contextualisation, answer-text
    fallback, and source extraction from grounding chunks;
  - src/components/ChatMessage.tsx : base64-PCM decoding (pcmToAudioBuffer)
    and the per-message playback controller (handleSpeak / stopAudio);
  - src/App.tsx : the query session (handleSearch split into its synchronous
    submit phase and its two resolution continuations, plus the header reset).

JavaScript floats are modelled as rationals (every value the code produces,
an int16 divided by 32768, is exact in binary floating point, so the model
is faithful); machine integers are Nat/Int; exceptions are Except; the
browser URL parser is an explicit function parameter.
-/

namespace Leyes

/-- A citation source, from src/types (Source): the code always fills `title`
(either the chunk's title or the parsed hostname), so it is a plain String
here. -/
structure Source where
  uri : String
  title : String
deriving Repr, DecidableEq

/-! ## geminiService.ts : searchLegalInfo -/

/-- The contextString accumulator of searchLegalInfo: starts empty, appends
the country part when `country` is truthy (non-empty), then the state part
when `state` is truthy. An absent optional argument behaves like the empty
string (both are falsy), so absence is modelled as `""`. -/
def contextString (country state : String) : String :=
  (if country = "" then "" else "País: " ++ country) ++
    (if state = "" then "" else ", Estado/Región: " ++ state)

/-- The effective query searchLegalInfo sends: the raw query, or, when the
context string is truthy, the context preamble wrapped around it. -/
def contextualizedQuery (query country state : String) : String :=
  if contextString country state = "" then query
  else
    "Contexto Legal (" ++ contextString country state ++
      "). Pregunta del usuario: " ++ query

/-- The fixed fallback answer of searchLegalInfo. -/
def fallbackAnswer : String := "Lo siento, no pude generar una respuesta en este momento."

/-- The answer text searchLegalInfo returns: `response.text || fallback`.
A JavaScript falsy text (absent, modelled `none`, or empty) yields the
fallback. -/
def effectiveText : Option String → String
  | some t => if t = "" then fallbackAnswer else t
  | none => fallbackAnswer

/-- A grounding chunk's `web` field: `uri` and `title` are both optional in
the raw record. -/
structure WebRef where
  uri : Option String
  title : Option String
deriving Repr, DecidableEq

/-- A raw grounding chunk as searchLegalInfo reads it: an object that may
carry a `web` record. -/
structure GroundingChunk where
  web : Option WebRef
deriving Repr, DecidableEq

/-- One iteration of the chunks.forEach body. `parseHost` models the browser
facility `new URL(u).hostname`; `none` models the constructor throwing on a
string it cannot parse. The body pushes a source only when `chunk.web?.uri`
is truthy; the title is `chunk.web.title || new URL(uri).hostname`, so the
host is parsed only when the title is falsy (absent or empty), and a parse
failure is an exception that aborts the whole extraction. -/
def chunkStep (parseHost : String → Option String) (acc : List Source)
    (c : GroundingChunk) : Except Unit (List Source) :=
  match c.web with
  | none => .ok acc
  | some w =>
    match w.uri with
    | none => .ok acc
    | some u =>
      if u = "" then .ok acc
      else
        match w.title with
        | some t =>
          if t = "" then
            match parseHost u with
            | some h => .ok (acc ++ [⟨u, h⟩])
            | none => .error ()
          else .ok (acc ++ [⟨u, t⟩])
        | none =>
          match parseHost u with
          | some h => .ok (acc ++ [⟨u, h⟩])
          | none => .error ()

/-- The forEach loop over the grounding chunks, accumulating the pushed
sources; an exception from any iteration propagates out of the loop. -/
def extractGo (parseHost : String → Option String) (acc : List Source) :
    List GroundingChunk → Except Unit (List Source)
  | [] => .ok acc
  | c :: rest =>
    match chunkStep parseHost acc c with
    | .error e => .error e
    | .ok acc2 => extractGo parseHost acc2 rest

/-- Source extraction of searchLegalInfo: the forEach over the chunk list
starting from the empty sources array. An `.error` models the exception
reaching searchLegalInfo's catch, which fails the whole query. -/
def extractSources (parseHost : String → Option String)
    (chunks : List GroundingChunk) : Except Unit (List Source) :=
  extractGo parseHost [] chunks

/-! ## ChatMessage.tsx : audio decoding -/

/-- Reinterpret two bytes as a signed 16-bit little-endian integer, as the
Int16Array view over the Uint8Array does. -/
def int16OfBytes (lo hi : Nat) : Int :=
  if lo + 256 * hi < 32768 then (lo + 256 * hi : Int)
  else (lo + 256 * hi : Int) - 65536

/-- The sample ints an Int16Array view exposes over an even-length byte
sequence, in order, little-endian. -/
def bytesToInt16 : List Nat → List Int
  | lo :: hi :: rest => int16OfBytes lo hi :: bytesToInt16 rest
  | _ => []

/-- The decoded audio buffer: sample rate, channel count and the normalized
float samples (floats as exact rationals: an int16 over 32768 is exact in
binary floating point). -/
structure DecodedAudio where
  sampleRate : Nat
  channelCount : Nat
  samples : List ℚ
deriving Repr, DecidableEq

/-- The spec's decode-layer error taxonomy. pcmToAudioBuffer itself can only
raise TruncatedAudio (the Int16Array constructor's failure on an odd byte
length); MalformedPayload belongs to the base64 step and EmptyAudio to the
buffer-creation step, neither of which this function raises. -/
inductive DecodeError where
  | TruncatedAudio
  | MalformedPayload
  | EmptyAudio
deriving Repr, DecidableEq

/-- pcmToAudioBuffer of ChatMessage.tsx: `new Int16Array(data.buffer)` throws
when the byte length is odd (modelled as the TruncatedAudio failure);
otherwise every sample s becomes the float s / 32768.0 in a single-channel
buffer at the given sample rate. -/
def pcmToAudioBuffer (data : List Nat) (sampleRate : Nat) :
    Except DecodeError DecodedAudio :=
  if data.length % 2 = 0 then
    .ok ⟨sampleRate, 1, (bytesToInt16 data).map (fun s => (s : ℚ) / 32768)⟩
  else .error .TruncatedAudio

/-! ## ChatMessage.tsx : playback controller -/

/-- The per-message playback state of one ChatMessage component: the
isPlaying and isLoadingAudio useState flags and whether sourceRef /
audioContextRef currently hold a resource. -/
structure ControllerState where
  isPlaying : Bool
  isLoadingAudio : Bool
  hasSource : Bool
  hasCtx : Bool
deriving Repr, DecidableEq

/-- stopAudio of ChatMessage.tsx: stop and drop the source node (the raw
stop call's exception when the node was already stopped is caught and
ignored, so this function is total for every state, in particular when
hasSource is already false), close and drop the audio context, and clear
isPlaying. -/
def stopAudio (st : ControllerState) : ControllerState :=
  { st with hasSource := false, hasCtx := false, isPlaying := false }

/-- The outcome of the external generateSpeech call a non-cancel handleSpeak
invocation observes: a failure, or a success carrying the decoded payload
bytes. -/
inductive SynthResult where
  | failure
  | success (audioBytes : List Nat)
deriving Repr, DecidableEq

/-- handleSpeak of ChatMessage.tsx, as a function of the controller state and
the synthesis outcome; the second component counts the generateSpeech calls
the invocation issues. While isPlaying it is the cancel path: stopAudio and
return, no synthesis call. Otherwise it calls generateSpeech once; on
failure the catch alerts and the finally clears isLoadingAudio; on success
the audio context is created, the payload decoded (a decode failure lands in
the same catch, with the context still held), and on a successful decode
playback starts and isPlaying is set. -/
def handleSpeak (st : ControllerState) (synth : SynthResult) :
    ControllerState × Nat :=
  if st.isPlaying then (stopAudio st, 0)
  else
    match synth with
    | .failure => ({ st with isLoadingAudio := false }, 1)
    | .success bytes =>
      match pcmToAudioBuffer bytes 24000 with
      | .error _ => ({ st with hasCtx := true, isLoadingAudio := false }, 1)
      | .ok _ =>
        ({ st with hasCtx := true, hasSource := true
                   isPlaying := true, isLoadingAudio := false }, 1)

/-- Invoking handleSpeak on the controller of the message at index j of a
rendered message list. Each ChatMessage component owns its useState/useRef
cells and handleSpeak reads only its own, so the other components' states
are untouched — there is no process-wide currently-playing reference in the
source. -/
def speakAt (synth : SynthResult) :
    List ControllerState → Nat → List ControllerState
  | [], _ => []
  | st :: rest, 0 => (handleSpeak st synth).1 :: rest
  | st :: rest, Nat.succ j => st :: speakAt synth rest j

/-! ## App.tsx : the query session -/

/-- A chat turn's role, from src/types. -/
inductive Role where
  | user
  | model
deriving Repr, DecidableEq

/-- A conversation turn, from src/types (ChatMessage). -/
structure ChatMsg where
  id : String
  role : Role
  text : String
  sources : Option (List Source)
  timestamp : Nat
deriving Repr, DecidableEq

/-- The SearchState of src/types: loading flag, last error, and whether a
search has been made. -/
structure SearchState where
  isLoading : Bool
  error : Option String
  hasSearched : Bool
deriving Repr, DecidableEq

/-- The App component's state relevant to the session: the message list, the
input field and the search state. -/
structure AppState where
  messages : List ChatMsg
  inputValue : String
  searchState : SearchState
deriving Repr, DecidableEq

/-- JavaScript String.prototype.trim over the string's characters: drop
whitespace from both ends. -/
def jsTrim (s : String) : String :=
  ⟨((s.data.dropWhile Char.isWhitespace).reverse.dropWhile Char.isWhitespace).reverse⟩

/-- The synchronous phase of handleSearch, up to the await: rejected as a
no-op when the trimmed input is empty or a query is already loading;
otherwise it clears the input, appends the user turn (id and timestamp from
Date.now, modelled by `now`) and sets {isLoading, no error, hasSearched}. -/
def handleSearchSubmit (st : AppState) (now : Nat) : AppState :=
  if jsTrim st.inputValue = "" ∨ st.searchState.isLoading = true then st
  else
    { st with
        inputValue := ""
        messages := st.messages ++
          [{ id := toString now, role := .user, text := jsTrim st.inputValue,
             sources := none, timestamp := now }]
        searchState := { isLoading := true, error := none, hasSearched := true } }

/-- The success continuation of handleSearch, run when the awaited
searchLegalInfo call resolves: it appends the model turn and clears
isLoading, unconditionally — the source carries no session-generation tag,
so the continuation applies to whatever state exists at resolution time. -/
def handleSearchSuccess (st : AppState) (respText : String)
    (respSources : List Source) (now : Nat) : AppState :=
  { st with
      messages := st.messages ++
        [{ id := toString (now + 1), role := .model, text := respText,
           sources := some respSources, timestamp := now }]
      searchState := { st.searchState with isLoading := false } }

/-- The catch continuation of handleSearch: clears isLoading and sets the
error to error.message, or to the fixed fallback when that message is falsy;
the message list is untouched. -/
def handleSearchFailure (st : AppState) (msg : String) : AppState :=
  { st with
      searchState :=
        { st.searchState with
            isLoading := false
            error := some (if msg = "" then "Ocurrió un error inesperado." else msg) } }

/-- The header onClick of App.tsx — the session reset: search state back to
its initial value, messages cleared, input cleared. -/
def resetSession (st : AppState) : AppState :=
  { st with
      searchState := { isLoading := false, error := none, hasSearched := false }
      messages := []
      inputValue := "" }

/-! ## Concrete states used by witnesses and counterexamples -/

/-- A fresh session about to submit the question "hola". -/
def demoState : AppState :=
  { messages := [], inputValue := "hola",
    searchState := { isLoading := false, error := none, hasSearched := false } }

/-- An idle playback controller holding no resources. -/
def idleController : ControllerState :=
  { isPlaying := false, isLoadingAudio := false, hasSource := false, hasCtx := false }

/-- A host parser that parses exactly the demo URL, as a stand-in for the
browser's URL constructor. -/
def demoParseHost : String → Option String :=
  fun s => if s = "https://ok.example/ley" then some "ok.example" else none

/-- A grounding chunk with both uri and title. -/
def goodChunk : GroundingChunk :=
  ⟨some ⟨some "https://ok.example/ley", some "Ley X"⟩⟩

/-- A grounding chunk whose uri the host parser rejects and which carries no
title. -/
def badChunk : GroundingChunk :=
  ⟨some ⟨some "::malformed::", none⟩⟩

/-- A controller that is Playing while its source node is already gone (the
output was already stopped). -/
def playingController : ControllerState :=
  { isPlaying := true, isLoadingAudio := false, hasSource := false, hasCtx := false }

/-! ## Claim C1 : reset during an in-flight query -/

/-- Claim C1, counterexample: starting from a fresh session, submitting
"hola", resetting while the query is in flight, and then letting the query
resolve successfully leaves the turn list holding the stale assistant turn —
it is appended and the list is not empty, contrary to the claim. -/
theorem stale_result_after_reset_cex :
    (handleSearchSuccess (resetSession (handleSearchSubmit demoState 1))
          "respuesta" [] 2).messages =
        [{ id := "3", role := .model, text := "respuesta", sources := some [],
           timestamp := 2 }] ∧
      (handleSearchSuccess (resetSession (handleSearchSubmit demoState 1))
          "respuesta" [] 2).messages ≠ [] :=
  ⟨by decide, by decide⟩

/-- Claim C1 as amended: reset() called during an in-flight query does not
suppress the late result. The code tags no in-flight call with a session
generation, so when the query later resolves successfully its assistant turn
is appended to the cleared session, and the turn list ends up containing
exactly that stale assistant turn instead of remaining empty. -/
theorem stale_result_after_reset_appended (st : AppState) (now now2 : Nat)
    (respText : String) (srcs : List Source)
    (hq : jsTrim st.inputValue ≠ "") (hl : st.searchState.isLoading = false) :
    (handleSearchSuccess (resetSession (handleSearchSubmit st now))
        respText srcs now2).messages =
      [{ id := toString (now2 + 1), role := .model, text := respText,
         sources := some srcs, timestamp := now2 }] := by
  simp [handleSearchSubmit, hq, hl, resetSession, handleSearchSuccess]

/-- Claim C1, witness: the amended theorem at the fresh demo session. -/
theorem stale_result_after_reset_appended_witness :
    (handleSearchSuccess (resetSession (handleSearchSubmit demoState 1))
        "respuesta" [] 2).messages =
      [{ id := toString (2 + 1), role := .model, text := "respuesta",
         sources := some [], timestamp := 2 }] :=
  stale_result_after_reset_appended demoState 1 2 "respuesta" [] (by decide) (by decide)

/-! ## Claim C2 : at most one turn playing -/

/-- Claim C2, counterexample: two idle message controllers; speak on turn 0
with a successful synthesis, then speak on turn 1 likewise — afterwards both
turns are in the Playing state at the same instant, contrary to the claim
that any other playing turn is stopped first. -/
theorem two_turns_playing_cex :
    ((speakAt (.success [0, 0])
        (speakAt (.success [0, 0]) [idleController, idleController] 0) 1).filter
        (fun st => st.isPlaying)).length = 2 := by decide

/-- Claim C2 as amended: playback state is per turn with no process-wide
currently-playing reference — invoking speak on turn j leaves every other
turn's controller state unchanged (in particular it never stops another
turn's playback), so several turns can be Playing simultaneously. -/
theorem speakAt_leaves_other_turns (synth : SynthResult) (sys : List ControllerState)
    (i j : Nat) (hij : i ≠ j) :
    (speakAt synth sys j)[i]? = sys[i]? := by
  induction sys generalizing i j with
  | nil => simp [speakAt]
  | cons st rest ih =>
    match j with
    | 0 =>
      match i with
      | 0 => exact absurd rfl hij
      | i + 1 => simp [speakAt]
    | j + 1 =>
      match i with
      | 0 => simp [speakAt]
      | i + 1 => simpa [speakAt] using ih i j (fun h => hij (by omega))

/-- Claim C2, witness: speaking on turn 1 leaves turn 0's controller as it
was. -/
theorem speakAt_leaves_other_turns_witness :
    (speakAt (.success [0, 0]) [idleController, idleController] 1)[0]? =
      [idleController, idleController][0]? :=
  speakAt_leaves_other_turns (.success [0, 0]) [idleController, idleController] 0 1
    (by decide)

/-! ## Claim C3 : malformed URL during source extraction -/

/-- Claim C3, counterexample: a batch of one good record (with title)
followed by one record whose URL the host parser rejects and which has no
title fails as a whole — the good record is not extracted and the operation
does not succeed, even though the good record alone extracts fine. -/
theorem malformed_uri_fails_batch_cex :
    extractSources demoParseHost [goodChunk, badChunk] = .error () ∧
      extractSources demoParseHost [goodChunk] =
        .ok [{ uri := "https://ok.example/ley", title := "Ley X" }] :=
  ⟨rfl, rfl⟩

/-- Helper: the extraction loop over an appended chunk list runs the first
part and, if it did not throw, continues with the accumulated sources. -/
theorem extractGo_append (parseHost : String → Option String) (acc : List Source)
    (l1 l2 : List GroundingChunk) :
    extractGo parseHost acc (l1 ++ l2) =
      match extractGo parseHost acc l1 with
      | .error e => .error e
      | .ok acc2 => extractGo parseHost acc2 l2 := by
  induction l1 generalizing acc with
  | nil => simp [extractGo]
  | cons c rest ih =>
    simp only [List.cons_append, extractGo]
    cases hstep : chunkStep parseHost acc c with
    | error e => rfl
    | ok acc2 => exact ih acc2

/-- Claim C3 as amended: a record whose URL cannot be parsed for host
extraction and whose title is absent or empty fails the WHOLE batch, not
just that record — the parse exception escapes the extraction loop and the
entire operation fails (records with a non-empty explicit title never need
host parsing, so only title-less records can trigger this). -/
theorem malformed_uri_fails_whole_batch (parseHost : String → Option String)
    (pre post : List GroundingChunk) (u : String) (t : Option String)
    (acc : List Source)
    (hpre : extractGo parseHost [] pre = .ok acc)
    (hu : u ≠ "") (ht : t = none ∨ t = some "")
    (hph : parseHost u = none) :
    extractSources parseHost (pre ++ (⟨some ⟨some u, t⟩⟩ : GroundingChunk) :: post) =
      .error () := by
  have hstep : chunkStep parseHost acc ⟨some ⟨some u, t⟩⟩ = .error () := by
    rcases ht with h | h <;> subst h <;> simp [chunkStep, hu, hph]
  simp only [extractSources]
  rw [extractGo_append, hpre]
  simp [extractGo, hstep]

/-- Claim C3, witness: the amended theorem at the concrete good-then-bad
batch. -/
theorem malformed_uri_fails_whole_batch_witness :
    extractSources demoParseHost
        ([goodChunk] ++ (⟨some ⟨some "::malformed::", none⟩⟩ : GroundingChunk) :: []) =
      .error () :=
  malformed_uri_fails_whole_batch demoParseHost [goodChunk] [] "::malformed::" none
    [{ uri := "https://ok.example/ley", title := "Ley X" }] rfl (by decide)
    (Or.inl rfl) rfl

/-! ## Claim C4 : deduplication by uri -/

/-- Claim C4, counterexample: a raw citation list naming the same uri twice
extracts to two Sources with that uri — the extracted sequence does not
contain at most one Source per distinct uri. -/
theorem duplicate_uri_not_deduped_cex :
    extractSources demoParseHost [goodChunk, goodChunk] =
        .ok [{ uri := "https://ok.example/ley", title := "Ley X" },
          { uri := "https://ok.example/ley", title := "Ley X" }] ∧
      ¬ (([{ uri := "https://ok.example/ley", title := "Ley X" },
          { uri := "https://ok.example/ley", title := "Ley X" }] : List Source).map
            (fun src => src.uri)).Nodup :=
  ⟨rfl, by decide⟩

/-- Claim C4 as amended: extraction does not deduplicate by uri — every
usable citation yields one Source in input order, so a uri occurring in n
citations yields n Sources. -/
theorem extract_keeps_duplicates (parseHost : String → Option String) (u t : String)
    (hu : u ≠ "") (ht : t ≠ "") (n : Nat) :
    extractSources parseHost
        (List.replicate n (⟨some ⟨some u, some t⟩⟩ : GroundingChunk)) =
      .ok (List.replicate n ({ uri := u, title := t } : Source)) := by
  have hstep : ∀ acc, chunkStep parseHost acc ⟨some ⟨some u, some t⟩⟩ =
      .ok (acc ++ [{ uri := u, title := t }]) := by
    intro acc
    simp [chunkStep, hu, ht]
  have key : ∀ m acc, extractGo parseHost acc
      (List.replicate m (⟨some ⟨some u, some t⟩⟩ : GroundingChunk)) =
      .ok (acc ++ List.replicate m ({ uri := u, title := t } : Source)) := by
    intro m
    induction m with
    | zero => intro acc; simp [extractGo]
    | succ m ih =>
      intro acc
      rw [List.replicate_succ]
      simp only [extractGo, hstep]
      rw [ih]
      simp [List.replicate_succ]
  simpa [extractSources] using key n []

/-- Claim C4, witness: two copies of the demo citation extract to two copies
of the demo Source. -/
theorem extract_keeps_duplicates_witness :
    extractSources demoParseHost
        (List.replicate 2
          (⟨some ⟨some "https://ok.example/ley", some "Ley X"⟩⟩ : GroundingChunk)) =
      .ok (List.replicate 2
        ({ uri := "https://ok.example/ley", title := "Ley X" } : Source)) :=
  extract_keeps_duplicates demoParseHost "https://ok.example/ley" "Ley X"
    (by decide) (by decide) 2

/-! ## Claim C5 : PCM normalization round trip -/

/-- Claim C5 (confirmed): for every valid even-length byte sequence, decode
succeeds, each signed 16-bit little-endian sample s becomes the amplitude
s / 32768.0, and re-deriving integers as round(sample * 32768) recovers the
original sample values exactly — in particular within 1 unit of rounding
error. -/
theorem decode_roundtrip (data : List Nat) (h2 : data.length % 2 = 0)
    (hb : ∀ b ∈ data, b < 256) :
    ∃ dec, pcmToAudioBuffer data 24000 = .ok dec ∧
      dec.samples = (bytesToInt16 data).map (fun s => (s : ℚ) / 32768) ∧
      ∀ s ∈ bytesToInt16 data,
        round (((s : ℚ) / 32768) * 32768) = s ∧
          |(round (((s : ℚ) / 32768) * 32768) : ℤ) - s| ≤ 1 := by
  refine ⟨⟨24000, 1, (bytesToInt16 data).map (fun s => (s : ℚ) / 32768)⟩, ?_, rfl, ?_⟩
  · simp [pcmToAudioBuffer, h2]
  · intro s _
    have hmul : ((s : ℚ) / 32768) * 32768 = (s : ℚ) :=
      div_mul_cancel₀ _ (by norm_num)
    rw [hmul, round_intCast]
    exact ⟨rfl, by simp⟩

/-- Claim C5, witness: the bytes 0x34 0x12 0xFF 0xFF (samples 4660 and -1). -/
theorem decode_roundtrip_witness :
    ([52, 18, 255, 255] : List Nat).length % 2 = 0 ∧
      (∀ b ∈ ([52, 18, 255, 255] : List Nat), b < 256) ∧
      ∃ dec, pcmToAudioBuffer [52, 18, 255, 255] 24000 = .ok dec ∧
        dec.samples = (bytesToInt16 [52, 18, 255, 255]).map (fun s => (s : ℚ) / 32768) ∧
        ∀ s ∈ bytesToInt16 [52, 18, 255, 255],
          round (((s : ℚ) / 32768) * 32768) = s ∧
            |(round (((s : ℚ) / 32768) * 32768) : ℤ) - s| ≤ 1 :=
  ⟨by decide, by decide, decode_roundtrip [52, 18, 255, 255] (by decide) (by decide)⟩

/-! ## Claim C6 : odd byte length -/

/-- Claim C6 (confirmed): decode on an odd-length byte sequence always fails
with TruncatedAudio — never succeeds and never fails with another error of
the decode taxonomy. -/
theorem pcm_odd_truncated (data : List Nat) (h : data.length % 2 = 1) :
    pcmToAudioBuffer data 24000 = .error .TruncatedAudio := by
  simp [pcmToAudioBuffer, h]

/-- Claim C6, witness: the single byte 0x00. -/
theorem pcm_odd_truncated_witness :
    ([0] : List Nat).length % 2 = 1 ∧
      pcmToAudioBuffer [0] 24000 = .error .TruncatedAudio :=
  ⟨by decide, pcm_odd_truncated [0] (by decide)⟩

/-! ## Claim C7 : speak while playing cancels -/

/-- Claim C7 (confirmed): invoking speak on a turn that is Playing
transitions it to Idle (isPlaying false, resources released), issues no new
synthesis call, and the cancel path is total and idempotent — stopping an
already-stopped controller is a no-op, never a fault. -/
theorem speak_while_playing_cancels (st : ControllerState) (synth : SynthResult)
    (h : st.isPlaying = true) :
    handleSpeak st synth = (stopAudio st, 0) ∧
      (stopAudio st).isPlaying = false ∧
      stopAudio (stopAudio st) = stopAudio st := by
  refine ⟨?_, rfl, rfl⟩
  simp [handleSpeak, h]

/-- Claim C7, witness: a Playing controller whose output was already stopped
(no source node held). -/
theorem speak_while_playing_cancels_witness :
    handleSpeak playingController .failure = (stopAudio playingController, 0) ∧
      (stopAudio playingController).isPlaying = false ∧
      stopAudio (stopAudio playingController) = stopAudio playingController :=
  speak_while_playing_cancels playingController .failure rfl

/-! ## Claim C8 : failed query -/

/-- Claim C8 (confirmed): when the external call of a submitted query fails,
the session sets lastError to the failure's human-readable message, clears
isQuerying, appends no assistant turn, and the already-appended user turn
remains in the list unchanged. -/
theorem submit_failure_keeps_user_turn (st : AppState) (now : Nat) (msg : String)
    (hq : jsTrim st.inputValue ≠ "") (hl : st.searchState.isLoading = false)
    (hm : msg ≠ "") :
    (handleSearchFailure (handleSearchSubmit st now) msg).searchState.error = some msg ∧
      (handleSearchFailure (handleSearchSubmit st now) msg).searchState.isLoading = false ∧
      (handleSearchFailure (handleSearchSubmit st now) msg).messages =
        st.messages ++
          [{ id := toString now, role := .user, text := jsTrim st.inputValue,
             sources := none, timestamp := now }] := by
  simp [handleSearchSubmit, handleSearchFailure, hq, hl, hm]

/-- Claim C8, witness: the fresh demo session, failing with the message
searchLegalInfo actually throws. -/
theorem submit_failure_keeps_user_turn_witness :
    (handleSearchFailure (handleSearchSubmit demoState 5)
          "Hubo un error al consultar el asistente legal. Por favor intenta de nuevo.").searchState.error =
        some "Hubo un error al consultar el asistente legal. Por favor intenta de nuevo." ∧
      (handleSearchFailure (handleSearchSubmit demoState 5)
          "Hubo un error al consultar el asistente legal. Por favor intenta de nuevo.").searchState.isLoading = false ∧
      (handleSearchFailure (handleSearchSubmit demoState 5)
          "Hubo un error al consultar el asistente legal. Por favor intenta de nuevo.").messages =
        demoState.messages ++
          [{ id := toString 5, role := .user, text := jsTrim demoState.inputValue,
             sources := none, timestamp := 5 }] :=
  submit_failure_keeps_user_turn demoState 5
    "Hubo un error al consultar el asistente legal. Por favor intenta de nuevo."
    (by decide) (by decide) (by decide)

/-! ## Claim C9 : context preamble without a country -/

/-- Claim C9 (confirmed): with an empty (or absent, which the code treats
identically) country and a non-empty state, the effective query is the
preamble beginning with a leading comma and space and naming no country:
"Contexto Legal (, Estado/Región: state). Pregunta del usuario: query". -/
theorem contextualizedQuery_no_country (q s : String) (hs : s ≠ "") :
    contextualizedQuery q "" s =
      "Contexto Legal (, Estado/Región: " ++ s ++ "). Pregunta del usuario: " ++ q := by
  have h1 : contextString "" s = ", Estado/Región: " ++ s := by
    simp [contextString, hs]
  have h2 : contextString "" s ≠ "" := by
    rw [h1]
    intro h
    have h3 := congrArg String.length h
    simp [String.length_append] at h3
    exact absurd h3.1 (by decide)
  rw [contextualizedQuery, if_neg h2, h1]
  rw [← String.append_assoc "Contexto Legal (" ", Estado/Región: " s]
  have hlit : ("Contexto Legal (" : String) ++ ", Estado/Región: " =
      "Contexto Legal (, Estado/Región: " := by decide
  rw [hlit]

/-- Claim C9, witness: state "Madrid", question "pregunta". -/
theorem contextualizedQuery_no_country_witness :
    contextualizedQuery "pregunta" "" "Madrid" =
      "Contexto Legal (, Estado/Región: " ++ "Madrid" ++
        "). Pregunta del usuario: " ++ "pregunta" :=
  contextualizedQuery_no_country "pregunta" "Madrid" (by decide)

/-! ## Claim C10 : non-empty answer text -/

/-- Claim C10 (confirmed): the answer text returned to the session is never
empty — for every provider text it is non-empty, and when the provider
returns absent or empty text the fixed fallback string takes its place. -/
theorem effectiveText_nonempty :
    (∀ rt : Option String, effectiveText rt ≠ "") ∧
      effectiveText none = fallbackAnswer ∧
      effectiveText (some "") = fallbackAnswer := by
  refine ⟨?_, rfl, rfl⟩
  intro rt
  match rt with
  | none => decide
  | some t =>
    by_cases ht : t = "" <;> simp [effectiveText, ht, fallbackAnswer]

end Leyes
